import Mathlib

/-!
Verification development for the Java→Bedrock mod transpiler.

Strings are modelled as `List Char`; JSON documents as the inductive `JVal`;
Python dicts as association lists in insertion order; Python floats as `ℚ`;
exceptions crossing the archive-read / JSON-decode boundary as `Except` values
carried by the entry model.  The two engine generations are embedded side by
side: the `_v2` definitions follow `backend/transpiler_engine.py`, the `_v3`
definitions follow `backend/transpiler_engine_v3.py`.
-/

abbrev Str := List Char

/-- JSON values, as produced by the engines before `json.dump`. -/
inductive JVal where
  | str (s : Str)
  | num (q : ℚ)
  | bool (b : Bool)
  | arr (xs : List JVal)
  | obj (fields : List (Str × JVal))

/-- First-match association lookup, the semantics of reading a Python dict key. -/
def jlookup : List (Str × JVal) → Str → Option JVal
  | [], _ => none
  | (k, v) :: rest, key => if k = key then some v else jlookup rest key

/-- Field access on a JSON object. -/
def JVal.get? : JVal → Str → Option JVal
  | .obj fs, k => jlookup fs k
  | _, _ => none

def jAsStr : JVal → Option Str
  | .str s => some s
  | _ => none

def jIsStr : JVal → Bool
  | .str _ => true
  | _ => false

/-- Python truthiness of a JSON value (`if converted:` in the source). -/
def jTruthy : JVal → Bool
  | .str s => !s.isEmpty
  | .num q => q ≠ 0
  | .bool b => b
  | .arr xs => !xs.isEmpty
  | .obj fs => !fs.isEmpty

/-- Python `dict[k] = v`: overwrite in place if the key exists, else append. -/
def dictInsert {α : Type} (k : Str) (v : α) (l : List (Str × α)) : List (Str × α) :=
  if l.any (fun kv => kv.1 = k) then l.map (fun kv => if kv.1 = k then (k, v) else kv)
  else l ++ [(k, v)]

/-- Python `str.split(c)`: splits on every occurrence, keeping empty pieces. -/
def splitOnChar (c : Char) : List Char → List (List Char)
  | [] => [[]]
  | x :: xs =>
    if x = c then [] :: splitOnChar c xs
    else (x :: (splitOnChar c xs).headD []) :: (splitOnChar c xs).tail

/-- Python `str.lower()` (the inputs of interest are ASCII). -/
def pyLower (s : Str) : Str := s.map Char.toLower

/-- Python `str.title()` restricted to ASCII letters. -/
def pyTitleGo : Bool → List Char → List Char
  | _, [] => []
  | prevAlpha, c :: cs =>
    (if c.isAlpha then (if prevAlpha then c.toLower else c.toUpper) else c)
      :: pyTitleGo c.isAlpha cs

def pyTitle (s : Str) : Str := pyTitleGo false s

/-- Python `int()` truncation toward zero on a float. -/
def pyTrunc (q : ℚ) : Int := if q < 0 then -((-q).floor) else q.floor

/-- `Path(filename).stem`: last path segment with the final extension removed. -/
def pathStem (fn : Str) : Str :=
  let base := (splitOnChar '/' fn).getLastD []
  let parts := splitOnChar '.' base
  if parts.length ≤ 1 then base else List.intercalate ['.'] parts.dropLast

/-! ## Mod-id derivation (`JarAnalyzer._extract_mod_id`, both engines)

The two `re.sub` passes are embedded as a leftmost scan with a matcher that
returns the length of the match at the current position (the patterns are
backtracking-free: alternatives have disjoint prefixes and every quantifier is
followed only by optional material). -/

/-- One leftmost-scan pass of `re.sub(pat, '', s)` driven by a matcher giving
the length matched at the current position. -/
def regexSubGo (m : List Char → Option Nat) : Nat → List Char → List Char
  | _, [] => []
  | 0, l => l
  | fuel + 1, c :: rest =>
    match m (c :: rest) with
    | some n => regexSubGo m fuel ((c :: rest).drop n)
    | none => c :: regexSubGo m fuel rest

def regexSub (m : List Char → Option Nat) (l : List Char) : List Char :=
  regexSubGo m l.length l

/-- Matcher for `1\.\d+\.?\d*` (the version alternative of the v2 loader pattern). -/
def matchVer1V2 : List Char → Option Nat
  | '1' :: '.' :: rest =>
    let ds := rest.takeWhile Char.isDigit
    if ds.isEmpty then none
    else
      match rest.drop ds.length with
      | '.' :: rest3 => some (2 + ds.length + 1 + (rest3.takeWhile Char.isDigit).length)
      | _ => some (2 + ds.length)
  | _ => none

/-- Matcher for `1\.\d+` (the version alternative of the v3 loader pattern). -/
def matchVer1V3 : List Char → Option Nat
  | '1' :: '.' :: rest =>
    let ds := rest.takeWhile Char.isDigit
    if ds.isEmpty then none else some (2 + ds.length)
  | _ => none

/-- Matcher for `[-_](forge|fabric|1\.\d+\.?\d*)` at the current position. -/
def matchLoaderV2 : List Char → Option Nat
  | [] => none
  | c :: rest =>
    if c = '-' ∨ c = '_' then
      if "forge".toList.isPrefixOf rest then some 6
      else if "fabric".toList.isPrefixOf rest then some 7
      else (matchVer1V2 rest).map (· + 1)
    else none

/-- Matcher for `[-_](forge|fabric|neoforge|1\.\d+)` at the current position. -/
def matchLoaderV3 : List Char → Option Nat
  | [] => none
  | c :: rest =>
    if c = '-' ∨ c = '_' then
      if "forge".toList.isPrefixOf rest then some 6
      else if "fabric".toList.isPrefixOf rest then some 7
      else if "neoforge".toList.isPrefixOf rest then some 9
      else (matchVer1V3 rest).map (· + 1)
    else none

/-- Matcher for `\d+\.?\d*\.?\d*` (greedy, no backtracking needed). -/
def matchVerDigits (rest : List Char) : Option Nat :=
  let ds := rest.takeWhile Char.isDigit
  if ds.isEmpty then none
  else
    match rest.drop ds.length with
    | '.' :: r2 =>
      let ds2 := r2.takeWhile Char.isDigit
      match r2.drop ds2.length with
      | '.' :: r4 => some (ds.length + 1 + ds2.length + 1 + (r4.takeWhile Char.isDigit).length)
      | _ => some (ds.length + 1 + ds2.length)
    | _ => some ds.length

/-- Matcher for `[-_]\d+\.?\d*\.?\d*` (the version-fragment pattern, both engines). -/
def matchVersionFragment : List Char → Option Nat
  | [] => none
  | c :: rest =>
    if c = '-' ∨ c = '_' then (matchVerDigits rest).map (· + 1) else none

/-- A character surviving `re.sub(r'[^a-z0-9_]', '_', s)` unchanged. -/
def isModChar (c : Char) : Bool :=
  ('a' ≤ c && c ≤ 'z') || ('0' ≤ c && c ≤ '9') || c = '_'

/-- The final substitution `re.sub(r'[^a-z0-9_]', '_', s)`. -/
def sanitizeModId (s : Str) : Str := s.map (fun c => if isModChar c then c else '_')

/-- `JarAnalyzer._extract_mod_id` of the v2 engine, over the filename stem. -/
def extract_mod_id_v2 (stem : Str) : Str :=
  sanitizeModId (regexSub matchVersionFragment (regexSub matchLoaderV2 (pyLower stem)))

/-- `JarAnalyzer._extract_mod_id` of the v3 engine, over the filename stem. -/
def extract_mod_id_v3 (stem : Str) : Str :=
  sanitizeModId (regexSub matchVersionFragment (regexSub matchLoaderV3 (pyLower stem)))

/-! ## Item-identifier normalization -/

/-- `BedrockConverter._normalize_item_id` (v2 engine). -/
def normalize_item_id (item_id modId : Str) : Str :=
  if (modId ++ [':']).isPrefixOf item_id then item_id
  else if ("minecraft:".toList).isPrefixOf item_id then item_id
  else if ':' ∉ item_id then modId ++ ':' :: item_id
  else if (splitOnChar ':' item_id).length = 2 then
    modId ++ ':' :: (splitOnChar ':' item_id).getD 1 []
  else item_id

/-- `BedrockConverter._fix_item_id` (v3 engine). -/
def fix_item_id (item_id modId : Str) : Str :=
  if ':' ∉ item_id then modId ++ ':' :: item_id
  else if (splitOnChar ':' item_id).getD 0 [] = "minecraft".toList then item_id
  else modId ++ ':' :: (splitOnChar ':' item_id).getD 1 []

/-! ## Item data model and lowering -/

/-- `JavaItem` dataclass of the v2 engine, with its source defaults. -/
structure JavaItemV2 where
  identifier : Str
  class_name : Str := []
  max_damage : Int := 0
  max_stack_size : Int := 64
  is_fireproof : Bool := false
  armor_value : Int := 0
  attack_damage : ℚ := 0
  mining_speed : ℚ := 1
  rarity : Str := "common".toList
  is_edible : Bool := false
  food_value : Int := 0
  saturation : ℚ := 0
  texture_name : Str := []
  has_custom_behavior : Bool := false
  creative_category : Str := "items".toList
deriving DecidableEq

/-- `JavaItem` dataclass of the v3 engine, with its source defaults. -/
structure JavaItemV3 where
  identifier : Str
  texture_name : Str := []
  max_stack_size : Int := 64
  max_damage : Int := 0
  attack_damage : ℚ := 0
  is_tool : Bool := false
  is_armor : Bool := false
  is_food : Bool := false
  food_value : Int := 0
deriving DecidableEq

/-- The `components` dict built by v2 `BedrockConverter.convert_item`, in
insertion order (every `if` of the source is one conditional chunk). -/
def item_components_v2 (item : JavaItemV2) (modId : Str) : List (Str × JVal) :=
  [("minecraft:max_stack_size".toList, JVal.num (item.max_stack_size : ℚ))]
  ++ (if 0 < item.max_damage then
        [("minecraft:durability".toList,
          JVal.obj [("max_durability".toList, JVal.num ((min item.max_damage 32767 : Int) : ℚ))])]
      else [])
  ++ (if item.is_fireproof then
        [("minecraft:ignores_damage".toList, JVal.bool true)] else [])
  ++ (if 0 < item.attack_damage then
        [("minecraft:damage".toList, JVal.num item.attack_damage)] else [])
  ++ (if 0 < item.armor_value then
        [("minecraft:armor".toList,
          JVal.obj [("protection".toList, JVal.num (item.armor_value : ℚ))])]
      else [])
  ++ (if item.is_edible then
        [("minecraft:food".toList,
          JVal.obj [("nutrition".toList, JVal.num (item.food_value : ℚ)),
                    ("saturation_modifier".toList, JVal.num item.saturation),
                    ("can_always_eat".toList, JVal.bool false)])]
      else [])
  ++ (if 1 < item.mining_speed then
        [("minecraft:digger".toList,
          JVal.obj [("use_efficiency".toList, JVal.bool true),
                    ("destroy_speeds".toList,
                     JVal.arr [JVal.obj [("block".toList, JVal.str "minecraft:stone".toList),
                                         ("speed".toList, JVal.num (pyTrunc item.mining_speed : ℚ))]])])]
      else [])
  ++ (if item.has_custom_behavior then
        [("minecraft:tags".toList,
          JVal.obj [("tags".toList, JVal.arr [JVal.str (modId ++ ":custom".toList)])])]
      else [])

/-- `BedrockConverter.convert_item` (v2 engine). -/
def convert_item_v2 (item : JavaItemV2) (modId : Str) : JVal :=
  JVal.obj [
    ("format_version".toList, JVal.str "1.20.80".toList),
    ("minecraft:item".toList, JVal.obj [
      ("description".toList, JVal.obj [
        ("identifier".toList, JVal.str (modId ++ ':' :: item.identifier)),
        ("menu_category".toList, JVal.obj [
          ("category".toList, JVal.str item.creative_category),
          ("group".toList, JVal.str ("itemGroup.name.".toList ++ modId))])]),
      ("components".toList, JVal.obj (item_components_v2 item modId))])]

/-- `BedrockConverter._get_additional_components` (v3 engine). -/
def get_additional_components_v3 (item : JavaItemV3) : List (Str × JVal) :=
  (if 0 < item.max_damage then
     [("minecraft:durability".toList,
       JVal.obj [("max_durability".toList, JVal.num ((min item.max_damage 32767 : Int) : ℚ))])]
   else [])
  ++ (if 0 < item.attack_damage then
        [("minecraft:damage".toList, JVal.num item.attack_damage)] else [])
  ++ (if item.is_tool then
        [("minecraft:digger".toList,
          JVal.obj [("use_efficiency".toList, JVal.bool true),
                    ("destroy_speeds".toList,
                     JVal.arr [JVal.obj [("block".toList, JVal.str "minecraft:stone".toList),
                                         ("speed".toList, JVal.num 8)]])])]
      else [])
  ++ (if item.is_food then
        [("minecraft:food".toList,
          JVal.obj [("nutrition".toList, JVal.num (item.food_value : ℚ)),
                    ("can_always_eat".toList, JVal.bool false)])]
      else [])

/-- `BedrockConverter.convert_item` (v3 engine): icon and stack size first,
then the additional components merged in with `**`. -/
def convert_item_v3 (item : JavaItemV3) (modId : Str) : JVal :=
  JVal.obj [
    ("format_version".toList, JVal.str "1.20.80".toList),
    ("minecraft:item".toList, JVal.obj [
      ("description".toList, JVal.obj [
        ("identifier".toList, JVal.str (modId ++ ':' :: item.identifier)),
        ("menu_category".toList, JVal.obj [
          ("category".toList,
           JVal.str (if item.is_tool || item.is_armor then "equipment".toList else "items".toList))])]),
      ("components".toList, JVal.obj (
        [("minecraft:icon".toList, JVal.obj [("texture".toList, JVal.str item.texture_name)]),
         ("minecraft:max_stack_size".toList, JVal.num (item.max_stack_size : ℚ))]
        ++ get_additional_components_v3 item))])]

/-- Components object of a lowered item document. -/
def compGet (doc : JVal) (key : Str) : Option JVal :=
  ((doc.get? "minecraft:item".toList).bind fun x => x.get? "components".toList).bind
    fun x => x.get? key

/-! ## Entity synthesis from textures -/

/-- Python substring containment `needle in hay`. -/
def pyIn (needle hay : Str) : Bool :=
  (List.range (hay.length + 1)).any fun i => needle.isPrefixOf (hay.drop i)

def toolWords : List Str :=
  ["sword".toList, "axe".toList, "pickaxe".toList, "shovel".toList, "hoe".toList]

def armorWords : List Str :=
  ["helmet".toList, "chestplate".toList, "leggings".toList, "boots".toList]

/-- Loop body of v3 `JarAnalyzer._create_items_from_textures`: the item
synthesized for one bare item texture (substring tests are Python `in`). -/
def create_item_from_texture_v3 (textureName : Str) : JavaItemV3 :=
  let base : JavaItemV3 := { identifier := textureName, texture_name := textureName }
  if toolWords.any (fun w => pyIn w textureName) then
    { base with is_tool := true, attack_damage := 4, max_damage := 250, max_stack_size := 1 }
  else if armorWords.any (fun w => pyIn w textureName) then
    { base with is_armor := true, max_stack_size := 1, max_damage := 250 }
  else base

/-- v3 `JarAnalyzer._create_items_from_textures` over the item-texture keys. -/
def create_items_from_textures_v3 (textures : List Str) : List (Str × JavaItemV3) :=
  textures.foldl (fun acc t => dictInsert t (create_item_from_texture_v3 t) acc) []

/-- Loop body of v2 `JarAnalyzer._create_default_items`: the item synthesized
for a texture with no scanned item. -/
def create_default_item_v2 (textureName : Str) : JavaItemV2 :=
  { identifier := textureName, texture_name := textureName, max_stack_size := 64 }

/-! ## Item texture atlas -/

/-- v3 `AddonGenerator._generate_item_texture_json`. -/
def generate_item_texture_json_v3 (modId : Str) (items : List (Str × JavaItemV3)) : JVal :=
  JVal.obj [
    ("resource_pack_name".toList, JVal.str modId),
    ("texture_name".toList, JVal.str "atlas.items".toList),
    ("texture_data".toList, JVal.obj (items.map fun kv =>
      (modId ++ ':' :: kv.1,
       JVal.obj [("textures".toList, JVal.str ("textures/items/".toList ++ kv.2.texture_name))])))]

/-- Keys of the `texture_data` object of an atlas document. -/
def textureDataKeys (atlas : JVal) : List Str :=
  match atlas.get? "texture_data".toList with
  | some (.obj fs) => fs.map (fun kv => kv.1)
  | _ => []

/-- The `icon` texture string referenced by a lowered item document. -/
def itemIconTexture (doc : JVal) : Option Str :=
  ((compGet doc "minecraft:icon".toList).bind fun x => x.get? "texture".toList).bind jAsStr

/-! ## Recipe data model and lowering -/

/-- A JSON ingredient as the converters see it: a bare string, a dict (with
optional `item`, `tag`, `count` fields), or a falsy/other value. -/
inductive PyIngredient where
  | str (s : Str)
  | dict (item? : Option Str) (tag? : Option Str) (count? : Option Int)
  | none
deriving DecidableEq

/-- A JSON recipe result: bare string, dict (`item`/`id`/`count`), or other.
A missing `result` field is the empty dict `dict .none .none .none`. -/
inductive PyResult where
  | str (s : Str)
  | dict (item? : Option Str) (id? : Option Str) (count? : Option Int)
  | other
deriving DecidableEq

/-- The decoded recipe JSON consumed by v2 `JarAnalyzer._analyze_recipe`.
`extras` models the further top-level ingredient-shaped fields that
`_convert_custom_recipe` iterates over. -/
structure RecipeDataV2 where
  type? : Option Str := Option.none
  pattern? : Option (List Str) := Option.none
  key : List (Str × PyIngredient) := []
  ingredients? : Option (List PyIngredient) := Option.none
  primary? : Option PyIngredient := Option.none
  secondary? : Option PyIngredient := Option.none
  extras : List (Str × PyIngredient) := []
  result? : Option PyResult := Option.none
deriving DecidableEq

/-- `JavaRecipe` dataclass of the v2 engine (the `raw_data` accesses used by
the converter are carried as the `raw_*` fields). -/
structure JavaRecipeV2 where
  recipe_id : Str
  recipe_type : Str := []
  pattern : List Str := []
  key : List (Str × PyIngredient) := []
  ingredients : List PyIngredient := []
  result : PyResult := PyResult.dict Option.none Option.none Option.none
  is_extreme : Bool := false
  raw_primary? : Option PyIngredient := Option.none
  raw_secondary? : Option PyIngredient := Option.none
  raw_extras : List (Str × PyIngredient) := []
deriving DecidableEq

/-- v2 `JarAnalyzer._analyze_recipe` on an already-decoded recipe JSON. -/
def analyze_recipe_v2 (recipeId : Str) (data : RecipeDataV2) : JavaRecipeV2 :=
  let pat := data.pattern?.getD []
  let ings :=
    match data.pattern?, data.ingredients? with
    | Option.some _, _ => []
    | Option.none, Option.some l => l
    | Option.none, Option.none =>
      if data.primary?.isSome ∨ data.secondary?.isSome then
        [data.primary?.getD (PyIngredient.dict Option.none Option.none Option.none),
         data.secondary?.getD (PyIngredient.dict Option.none Option.none Option.none)]
      else []
  { recipe_id := recipeId
    recipe_type := (splitOnChar ':' (data.type?.getD [])).getLastD []
    pattern := pat
    key := if data.pattern?.isSome then data.key else []
    ingredients := ings
    result := data.result?.getD (PyResult.dict Option.none Option.none Option.none)
    is_extreme := decide (3 < pat.length) || pat.any (fun p => decide (3 < p.length))
    raw_primary? := data.primary?
    raw_secondary? := data.secondary?
    raw_extras := data.extras }

/-- v2 `BedrockConverter._convert_ingredient`. -/
def convert_ingredient_v2 (ing : PyIngredient) (modId : Str) : JVal :=
  match ing with
  | .none => JVal.obj [("item".toList, JVal.str "minecraft:air".toList)]
  | .str s =>
    if s.isEmpty then JVal.obj [("item".toList, JVal.str "minecraft:air".toList)]
    else JVal.obj [("item".toList, JVal.str (normalize_item_id s modId))]
  | .dict item? tag? count? =>
    match item? with
    | Option.some it =>
      JVal.obj [("item".toList, JVal.str (normalize_item_id it modId)),
                ("count".toList, JVal.num ((count?.getD 1 : Int) : ℚ))]
    | Option.none =>
      match tag? with
      | Option.some tag =>
        JVal.obj [("item".toList,
                   JVal.str ("minecraft:".toList ++ (splitOnChar '/' tag).getLastD []))]
      | Option.none => JVal.obj [("item".toList, JVal.str "minecraft:air".toList)]

/-- v2 `BedrockConverter._convert_result`. -/
def convert_result_v2 (result : PyResult) (modId : Str) : JVal :=
  match result with
  | .str s =>
    JVal.obj [("item".toList, JVal.str (normalize_item_id s modId)),
              ("count".toList, JVal.num 1)]
  | .dict item? id? count? =>
    JVal.obj [("item".toList,
               JVal.str (normalize_item_id (item?.getD (id?.getD "minecraft:air".toList)) modId)),
              ("count".toList, JVal.num ((count?.getD 1 : Int) : ℚ))]
  | .other => JVal.obj [("item".toList, JVal.str "minecraft:air".toList),
                        ("count".toList, JVal.num 1)]

/-- The `key` object of a v2 shaped recipe: each symbol mapped through
`_convert_ingredient` in dict order. -/
def shapedKeyFieldsV2 (r : JavaRecipeV2) (modId : Str) : List (Str × JVal) :=
  r.key.map fun kv => (kv.1, convert_ingredient_v2 kv.2 modId)

/-- v2 `BedrockConverter._convert_shaped_recipe`. -/
def convert_shaped_recipe_v2 (r : JavaRecipeV2) (modId : Str) : JVal :=
  JVal.obj [
    ("format_version".toList, JVal.str "1.20.80".toList),
    ("minecraft:recipe_shaped".toList, JVal.obj [
      ("description".toList,
       JVal.obj [("identifier".toList, JVal.str (modId ++ ':' :: r.recipe_id))]),
      ("tags".toList, JVal.arr [JVal.str "crafting_table".toList]),
      ("pattern".toList, JVal.arr (r.pattern.map JVal.str)),
      ("key".toList, JVal.obj (shapedKeyFieldsV2 r modId)),
      ("result".toList, convert_result_v2 r.result modId)])]

/-- The ingredient list of a v2 shapeless recipe: each ingredient converted
and appended when the converted dict is truthy (`if converted:`). -/
def shapelessIngredientListV2 (ings : List PyIngredient) (modId : Str) : List JVal :=
  ings.foldl (fun acc ing =>
    if jTruthy (convert_ingredient_v2 ing modId) then acc ++ [convert_ingredient_v2 ing modId]
    else acc) []

/-- v2 `BedrockConverter._convert_shapeless_recipe`. -/
def convert_shapeless_recipe_v2 (r : JavaRecipeV2) (modId : Str) : JVal :=
  JVal.obj [
    ("format_version".toList, JVal.str "1.20.80".toList),
    ("minecraft:recipe_shapeless".toList, JVal.obj [
      ("description".toList,
       JVal.obj [("identifier".toList, JVal.str (modId ++ ':' :: r.recipe_id))]),
      ("tags".toList, JVal.arr [JVal.str "crafting_table".toList]),
      ("ingredients".toList, JVal.arr (shapelessIngredientListV2 r.ingredients modId)),
      ("result".toList, convert_result_v2 r.result modId)])]

/-- v2 `BedrockConverter._convert_custom_recipe`. -/
def convert_custom_recipe_v2 (r : JavaRecipeV2) (modId : Str) : JVal :=
  let ings :=
    (match r.raw_primary? with
     | Option.some p => [convert_ingredient_v2 p modId]
     | Option.none => [])
    ++ (match r.raw_secondary? with
        | Option.some s => [convert_ingredient_v2 s modId]
        | Option.none => [])
    ++ r.raw_extras.foldl (fun acc kv =>
         match kv.2 with
         | PyIngredient.dict i? t? _ =>
           if i?.isSome ∨ t?.isSome then acc ++ [convert_ingredient_v2 kv.2 modId] else acc
         | _ => acc) []
  JVal.obj [
    ("format_version".toList, JVal.str "1.20.80".toList),
    ("minecraft:recipe_shapeless".toList, JVal.obj [
      ("description".toList,
       JVal.obj [("identifier".toList, JVal.str (modId ++ ':' :: r.recipe_id))]),
      ("tags".toList, JVal.arr [JVal.str "crafting_table".toList]),
      ("ingredients".toList, JVal.arr ings),
      ("result".toList, convert_result_v2 r.result modId)])]

/-- v2 `BedrockConverter.convert_recipe`: extreme recipes are dropped, then
shaped / shapeless / custom dispatch, else `None`. -/
def convert_recipe_v2 (r : JavaRecipeV2) (modId : Str) : Option JVal :=
  if r.is_extreme then Option.none
  else if ¬ r.pattern.isEmpty then Option.some (convert_shaped_recipe_v2 r modId)
  else if ¬ r.ingredients.isEmpty then Option.some (convert_shapeless_recipe_v2 r modId)
  else if r.raw_primary?.isSome ∨ r.raw_secondary?.isSome then
    Option.some (convert_custom_recipe_v2 r modId)
  else Option.none

/-- Generator statistics of the v2 engine (`AddonGenerator.stats`). -/
structure GenStatsV2 where
  items_created : Nat := 0
  recipes_created : Nat := 0
  textures_copied : Nat := 0
  errors : List Str := []
deriving DecidableEq

/-- Loop body of v2 `AddonGenerator._generate_recipes`: convert, and only a
truthy non-`None` document is written and counted. -/
def generate_recipe_step_v2 (modId : Str) (st : GenStatsV2 × List (Str × JVal))
    (r : JavaRecipeV2) : GenStatsV2 × List (Str × JVal) :=
  match convert_recipe_v2 r modId with
  | Option.some doc =>
    if jTruthy doc then
      ({ st.1 with recipes_created := st.1.recipes_created + 1 }, st.2 ++ [(r.recipe_id, doc)])
    else st
  | Option.none => st

/-- The decoded recipe JSON consumed by the v3 converter. -/
structure RecipeDataV3 where
  type? : Option Str := Option.none
  pattern? : Option (List Str) := Option.none
  key : List (Str × PyIngredient) := []
  ingredients : List PyIngredient := []
  result? : Option PyResult := Option.none
deriving DecidableEq

/-- A v3 recipe record `{'id': stem, 'data': json}`. -/
structure RecipeV3 where
  id : Str
  data : RecipeDataV3
deriving DecidableEq

def pyIngIsDict : PyIngredient → Bool
  | .dict _ _ _ => true
  | _ => false

def pyResultIsDict : PyResult → Bool
  | .dict _ _ _ => true
  | _ => false

/-- `v.get('item', 'minecraft:air')` on a dict ingredient (v3 shaped key). -/
def pyIngItemOrAir : PyIngredient → Str
  | .dict i? _ _ => i?.getD "minecraft:air".toList
  | _ => "minecraft:air".toList

/-- One lowered entry of the v3 shaped-recipe `key` object. -/
def v3KeyEntry (modId : Str) (kv : Str × PyIngredient) : Str × JVal :=
  (kv.1, JVal.obj [("item".toList, JVal.str (fix_item_id (pyIngItemOrAir kv.2) modId))])

/-- `data.get('result', {}).get('item', 'minecraft:air')` (v3). -/
def v3ResultItem (r? : Option PyResult) : Str :=
  match r?.getD (PyResult.dict Option.none Option.none Option.none) with
  | .dict i? _ _ => i?.getD "minecraft:air".toList
  | _ => "minecraft:air".toList

/-- `data.get('result', {}).get('count', 1)` (v3). -/
def v3ResultCount (r? : Option PyResult) : Int :=
  match r?.getD (PyResult.dict Option.none Option.none Option.none) with
  | .dict _ _ c? => c?.getD 1
  | _ => 1

/-- v3 `BedrockConverter._convert_shaped` (pattern defaulted to 3×`"AAA"`). -/
def convert_shaped_v3 (r : RecipeV3) (modId : Str) : JVal :=
  JVal.obj [
    ("format_version".toList, JVal.str "1.20.80".toList),
    ("minecraft:recipe_shaped".toList, JVal.obj [
      ("description".toList,
       JVal.obj [("identifier".toList, JVal.str (modId ++ ':' :: r.id))]),
      ("tags".toList, JVal.arr [JVal.str "crafting_table".toList]),
      ("pattern".toList,
       JVal.arr ((r.data.pattern?.getD ["AAA".toList, "AAA".toList, "AAA".toList]).map JVal.str)),
      ("key".toList, JVal.obj (r.data.key.map (v3KeyEntry modId))),
      ("result".toList,
       JVal.obj [("item".toList, JVal.str (fix_item_id (v3ResultItem r.data.result?) modId)),
                 ("count".toList, JVal.num ((v3ResultCount r.data.result? : Int) : ℚ))])])]

/-- The ingredient list of a v3 shapeless recipe: only dict ingredients that
carry an `item` field are kept; everything else (tags included) is dropped. -/
def shapelessIngredientListV3 (ings : List PyIngredient) (modId : Str) : List JVal :=
  ings.foldl (fun acc ing =>
    match ing with
    | PyIngredient.dict (Option.some it) _ _ =>
      acc ++ [JVal.obj [("item".toList, JVal.str (fix_item_id it modId))]]
    | _ => acc) []

/-- v3 `BedrockConverter._convert_shapeless`. -/
def convert_shapeless_v3 (r : RecipeV3) (modId : Str) : JVal :=
  JVal.obj [
    ("format_version".toList, JVal.str "1.20.80".toList),
    ("minecraft:recipe_shapeless".toList, JVal.obj [
      ("description".toList,
       JVal.obj [("identifier".toList, JVal.str (modId ++ ':' :: r.id))]),
      ("tags".toList, JVal.arr [JVal.str "crafting_table".toList]),
      ("ingredients".toList, JVal.arr (shapelessIngredientListV3 r.data.ingredients modId)),
      ("result".toList,
       JVal.obj [("item".toList, JVal.str (fix_item_id (v3ResultItem r.data.result?) modId)),
                 ("count".toList, JVal.num ((v3ResultCount r.data.result? : Int) : ℚ))])])]

/-- v3 `BedrockConverter.convert_recipe`: type dispatch; the `try/except`
swallowing an `AttributeError` when an accessed field is not a dict is
modelled by returning `none` in exactly those cases. -/
def convert_recipe_v3 (r : RecipeV3) (modId : Str) : Option JVal :=
  let rtype := (splitOnChar ':' (r.data.type?.getD [])).getLastD []
  if rtype = "crafting_shaped".toList then
    if r.data.key.all (fun kv => pyIngIsDict kv.2)
        && pyResultIsDict (r.data.result?.getD (PyResult.dict Option.none Option.none Option.none)) then
      Option.some (convert_shaped_v3 r modId)
    else Option.none
  else if rtype = "crafting_shapeless".toList then
    if pyResultIsDict (r.data.result?.getD (PyResult.dict Option.none Option.none Option.none)) then
      Option.some (convert_shapeless_v3 r modId)
    else Option.none
  else Option.none

/-! ## Manifests -/

/-- v2 behavior-pack manifest (`AddonGenerator._generate_manifests`); the
fresh `uuid4` draws and the timestamp enter as parameters. -/
def bp_manifest_v2 (modId now bpU rpU bpM : Str) : JVal :=
  JVal.obj [
    ("format_version".toList, JVal.num 2),
    ("header".toList, JVal.obj [
      ("name".toList, JVal.str (pyTitle modId ++ " Behavior Pack".toList)),
      ("description".toList, JVal.str ("Converted from Java Edition\n".toList ++ now)),
      ("uuid".toList, JVal.str bpU),
      ("version".toList, JVal.arr [JVal.num 1, JVal.num 0, JVal.num 0]),
      ("min_engine_version".toList, JVal.arr [JVal.num 1, JVal.num 20, JVal.num 80])]),
    ("modules".toList, JVal.arr [
      JVal.obj [("type".toList, JVal.str "data".toList),
                ("uuid".toList, JVal.str bpM),
                ("version".toList, JVal.arr [JVal.num 1, JVal.num 0, JVal.num 0])]]),
    ("dependencies".toList, JVal.arr [
      JVal.obj [("uuid".toList, JVal.str rpU),
                ("version".toList, JVal.arr [JVal.num 1, JVal.num 0, JVal.num 0])]])]

/-- v2 resource-pack manifest. -/
def rp_manifest_v2 (modId now rpU rpM : Str) : JVal :=
  JVal.obj [
    ("format_version".toList, JVal.num 2),
    ("header".toList, JVal.obj [
      ("name".toList, JVal.str (pyTitle modId ++ " Resource Pack".toList)),
      ("description".toList, JVal.str ("Textures and UI\n".toList ++ now)),
      ("uuid".toList, JVal.str rpU),
      ("version".toList, JVal.arr [JVal.num 1, JVal.num 0, JVal.num 0]),
      ("min_engine_version".toList, JVal.arr [JVal.num 1, JVal.num 20, JVal.num 80])]),
    ("modules".toList, JVal.arr [
      JVal.obj [("type".toList, JVal.str "resources".toList),
                ("uuid".toList, JVal.str rpM),
                ("version".toList, JVal.arr [JVal.num 1, JVal.num 0, JVal.num 0])]])]

/-- The two manifest files written by one v2 invocation, in write order. -/
def generate_manifests_v2 (modId now bpU rpU bpM rpM : Str) : List (Str × JVal) :=
  [("behavior_pack/manifest.json".toList, bp_manifest_v2 modId now bpU rpU bpM),
   ("resource_pack/manifest.json".toList, rp_manifest_v2 modId now rpU rpM)]

/-- v3 behavior-pack manifest. -/
def bp_manifest_v3 (modId now bpU rpU bpM : Str) : JVal :=
  JVal.obj [
    ("format_version".toList, JVal.num 2),
    ("header".toList, JVal.obj [
      ("name".toList, JVal.str (pyTitle modId ++ " BP".toList)),
      ("description".toList, JVal.str ("Converted ".toList ++ now)),
      ("uuid".toList, JVal.str bpU),
      ("version".toList, JVal.arr [JVal.num 1, JVal.num 0, JVal.num 0]),
      ("min_engine_version".toList, JVal.arr [JVal.num 1, JVal.num 20, JVal.num 80])]),
    ("modules".toList, JVal.arr [
      JVal.obj [("type".toList, JVal.str "data".toList),
                ("uuid".toList, JVal.str bpM),
                ("version".toList, JVal.arr [JVal.num 1, JVal.num 0, JVal.num 0])]]),
    ("dependencies".toList, JVal.arr [
      JVal.obj [("uuid".toList, JVal.str rpU),
                ("version".toList, JVal.arr [JVal.num 1, JVal.num 0, JVal.num 0])]])]

/-- v3 resource-pack manifest. -/
def rp_manifest_v3 (modId rpU rpM : Str) : JVal :=
  JVal.obj [
    ("format_version".toList, JVal.num 2),
    ("header".toList, JVal.obj [
      ("name".toList, JVal.str (pyTitle modId ++ " RP".toList)),
      ("description".toList, JVal.str "Textures and Models".toList),
      ("uuid".toList, JVal.str rpU),
      ("version".toList, JVal.arr [JVal.num 1, JVal.num 0, JVal.num 0]),
      ("min_engine_version".toList, JVal.arr [JVal.num 1, JVal.num 20, JVal.num 80])]),
    ("modules".toList, JVal.arr [
      JVal.obj [("type".toList, JVal.str "resources".toList),
                ("uuid".toList, JVal.str rpM),
                ("version".toList, JVal.arr [JVal.num 1, JVal.num 0, JVal.num 0])]])]

/-- The two manifest files written by one v3 invocation, in write order. -/
def generate_manifests_v3 (modId now bpU rpU bpM rpM : Str) : List (Str × JVal) :=
  [("behavior_pack/manifest.json".toList, bp_manifest_v3 modId now bpU rpU bpM),
   ("resource_pack/manifest.json".toList, rp_manifest_v3 modId rpU rpM)]

/-- Header identifier of a manifest. -/
def headerUuid (m : JVal) : Option Str :=
  ((m.get? "header".toList).bind fun h => h.get? "uuid".toList).bind jAsStr

/-- Module identifiers of a manifest, in order. -/
def moduleUuids (m : JVal) : List Str :=
  match m.get? "modules".toList with
  | Option.some (.arr xs) => xs.filterMap fun x => (x.get? "uuid".toList).bind jAsStr
  | _ => []

/-- Dependency identifiers of a manifest, in order. -/
def depUuids (m : JVal) : List Str :=
  match m.get? "dependencies".toList with
  | Option.some (.arr xs) => xs.filterMap fun x => (x.get? "uuid".toList).bind jAsStr
  | _ => []

/-! ## Archive analysis loop and result descriptor

Entry payloads carry the outcome of the archive read / JSON decode / bytecode
scan at the I/O boundary: `Except.error msg` stands for the Python exception
caught by the per-entry handler.  The error-path bookkeeping follows the
source exactly; the scanner internals behind a successful read are carried as
the already-built value. -/

/-- Analyzer state of the v2 engine (`items`, `recipes`, `textures`, `errors`). -/
structure AnalyzerStateV2 where
  items : List (Str × JavaItemV2) := []
  recipes : List (Str × JavaRecipeV2) := []
  textures : List (Str × Str) := []
  errors : List Str := []
deriving DecidableEq

/-- A classified archive entry as the v2 loop sees it. -/
inductive JarEntryV2 where
  | itemClassEntry (filename : Str) (scan : Except Str JavaItemV2)
  | recipeJsonEntry (filename : Str) (parsed : Except Str RecipeDataV2)
  | texturePngEntry (filename : Str) (read : Except Str Str)
  | otherEntry (filename : Str)

/-- Loop body of v2 `JarAnalyzer.analyze`: each handler has its own
`try/except` that appends one tagged warning and skips the entry. -/
def processEntryV2 (st : AnalyzerStateV2) (e : JarEntryV2) : AnalyzerStateV2 :=
  match e with
  | .itemClassEntry _ (.ok item) =>
    { st with items := dictInsert item.identifier item st.items }
  | .itemClassEntry fn (.error msg) =>
    { st with errors := st.errors ++ ["Item class ".toList ++ fn ++ ": ".toList ++ msg] }
  | .recipeJsonEntry fn (.ok data) =>
    { st with recipes :=
        dictInsert (pathStem fn) (analyze_recipe_v2 (pathStem fn) data) st.recipes }
  | .recipeJsonEntry fn (.error msg) =>
    { st with errors := st.errors ++ ["Recipe ".toList ++ fn ++ ": ".toList ++ msg] }
  | .texturePngEntry fn (.ok bytes) =>
    { st with textures := dictInsert (pathStem fn) bytes st.textures }
  | .texturePngEntry fn (.error msg) =>
    { st with errors := st.errors ++ ["Texture ".toList ++ fn ++ ": ".toList ++ msg] }
  | .otherEntry _ => st

/-- The result descriptor built on the success path of v2 `transpile_jar`:
`success` is `True` and `errors` counts generator plus analyzer warnings. -/
structure TranspileResultV2 where
  success : Bool
  mod_id : Str
  errorsCount : Nat
deriving DecidableEq

def transpile_result_v2 (modId : Str) (gen : GenStatsV2) (analyzerErrors : List Str) :
    TranspileResultV2 :=
  { success := true, mod_id := modId,
    errorsCount := gen.errors.length + analyzerErrors.length }

/-- Analyzer state of the v3 engine: it keeps no warning list at all. -/
structure AnalyzerStateV3 where
  items : List (Str × JavaItemV3) := []
  item_textures : List (Str × Str) := []
  block_textures : List (Str × Str) := []
  recipes : List RecipeV3 := []
deriving DecidableEq

/-- A classified archive entry as the v3 loop sees it. -/
inductive JarEntryV3 where
  | itemTextureEntry (filename : Str) (read : Except Str Str)
  | blockTextureEntry (filename : Str) (read : Except Str Str)
  | recipeJsonEntry (filename : Str) (parsed : Except Str RecipeDataV3)
  | otherEntry (filename : Str)

/-- Loop body of v3 `JarAnalyzer.analyze`: every failure is swallowed by a
bare `except: pass` — nothing is recorded anywhere. -/
def processEntryV3 (st : AnalyzerStateV3) (e : JarEntryV3) : AnalyzerStateV3 :=
  match e with
  | .itemTextureEntry fn (.ok bytes) =>
    { st with item_textures := dictInsert (pathStem fn) bytes st.item_textures }
  | .itemTextureEntry _ (.error _) => st
  | .blockTextureEntry fn (.ok bytes) =>
    { st with block_textures := dictInsert (pathStem fn) bytes st.block_textures }
  | .blockTextureEntry _ (.error _) => st
  | .recipeJsonEntry fn (.ok data) =>
    { st with recipes := st.recipes ++ [{ id := pathStem fn, data := data }] }
  | .recipeJsonEntry _ (.error _) => st
  | .otherEntry _ => st

/-- Generator statistics of the v3 engine (it has no error counter). -/
structure GenStatsV3 where
  items : Nat := 0
  blocks : Nat := 0
  recipes : Nat := 0
  textures : Nat := 0
deriving DecidableEq

/-- The `stats` object of the v3 `transpile_jar` result: four counters and
nothing else. -/
def result_stats_v3 (g : GenStatsV3) : JVal :=
  JVal.obj [
    ("items_processed".toList, JVal.num (g.items : ℚ)),
    ("blocks_processed".toList, JVal.num (g.blocks : ℚ)),
    ("recipes_converted".toList, JVal.num (g.recipes : ℚ)),
    ("assets_extracted".toList, JVal.num (g.textures : ℚ))]

/-- Number of occurrences of a character (used to state "at most one `:`"). -/
def countc (c : Char) : Str → Nat
  | [] => 0
  | x :: xs => (if x = c then 1 else 0) + countc c xs

/-- An identifier that carries a namespace: it begins with `minecraft:` or
with `{mod_id}:`. -/
def carriesNamespace (r modId : Str) : Prop :=
  ("minecraft:".toList).isPrefixOf r = true ∨ (modId ++ [':']).isPrefixOf r = true

/-! ## Helper lemmas -/

theorem isPrefixOf_append_cons (a t : Str) (c : Char) :
    (a ++ [c]).isPrefixOf (a ++ c :: t) = true := by
  induction a with
  | nil => simp [List.isPrefixOf]
  | cons x xs ih => simp [List.isPrefixOf, ih]

theorem mem_of_isPrefixOf {p l : Str} {x : Char}
    (h : p.isPrefixOf l = true) (hx : x ∈ p) : x ∈ l := by
  induction p generalizing l with
  | nil => simp at hx
  | cons a as ih =>
    cases l with
    | nil => simp [List.isPrefixOf] at h
    | cons b bs =>
      simp only [List.isPrefixOf, Bool.and_eq_true, beq_iff_eq] at h
      rcases List.mem_cons.mp hx with hx | hx
      · exact hx ▸ h.1 ▸ List.mem_cons_self b bs
      · exact List.mem_cons_of_mem b (ih h.2 hx)

theorem isPrefixOf_colon_iff {a b : Str} (t : Str) (ha : ':' ∉ a) (hb : ':' ∉ b) :
    ((a ++ [':']).isPrefixOf (b ++ ':' :: t) = true) ↔ a = b := by
  induction a generalizing b with
  | nil =>
    cases b with
    | nil => simp [List.isPrefixOf]
    | cons y ys =>
      have hy : y ≠ ':' := fun h => hb (h ▸ List.mem_cons_self y ys)
      simp [List.isPrefixOf, Ne.symm hy]
  | cons x xs ih =>
    have hx : x ≠ ':' := fun h => ha (h ▸ List.mem_cons_self x xs)
    cases b with
    | nil => simp [List.isPrefixOf, hx]
    | cons y ys =>
      have ha' : ':' ∉ xs := fun h => ha (List.mem_cons_of_mem x h)
      have hb' : ':' ∉ ys := fun h => hb (List.mem_cons_of_mem y h)
      simp only [List.cons_append, List.isPrefixOf, Bool.and_eq_true, beq_iff_eq,
        List.cons.injEq, List.append_eq]
      rw [ih ha' hb']

theorem not_isPrefixOf_colon_of_not_mem {a l : Str} (hl : ':' ∉ l) :
    (a ++ [':']).isPrefixOf l = false := by
  by_contra h
  have h' : (a ++ [':']).isPrefixOf l = true := by
    cases hh : (a ++ [':']).isPrefixOf l
    · exact absurd hh h
    · rfl
  exact hl (mem_of_isPrefixOf h' (by simp))

theorem splitOnChar_ne_nil (c : Char) (l : Str) : splitOnChar c l ≠ [] := by
  cases l with
  | nil => simp [splitOnChar]
  | cons x xs =>
    by_cases h : x = c <;> simp [splitOnChar, h]

theorem splitOnChar_not_mem {c : Char} {l : Str} (h : c ∉ l) : splitOnChar c l = [l] := by
  induction l with
  | nil => rfl
  | cons x xs ih =>
    have hx : x ≠ c := fun hh => h (hh ▸ List.mem_cons_self x xs)
    have hxs : c ∉ xs := fun hh => h (List.mem_cons_of_mem x hh)
    simp [splitOnChar, hx, ih hxs]

theorem splitOnChar_append {c : Char} {a : Str} (t : Str) (ha : c ∉ a) :
    splitOnChar c (a ++ c :: t) = a :: splitOnChar c t := by
  induction a with
  | nil => simp [splitOnChar]
  | cons x xs ih =>
    have hx : x ≠ c := fun hh => ha (hh ▸ List.mem_cons_self x xs)
    have hxs : c ∉ xs := fun hh => ha (List.mem_cons_of_mem x hh)
    simp [splitOnChar, hx, ih hxs]

theorem not_mem_of_mem_splitOnChar {c : Char} {l p : Str}
    (h : p ∈ splitOnChar c l) : c ∉ p := by
  induction l generalizing p with
  | nil =>
    simp [splitOnChar] at h
    simp [h]
  | cons x xs ih =>
    by_cases hx : x = c
    · simp only [splitOnChar, if_pos hx] at h
      rcases List.mem_cons.mp h with h | h
      · simp [h]
      · exact ih h
    · cases hsx : splitOnChar c xs with
      | nil => exact absurd hsx (splitOnChar_ne_nil c xs)
      | cons h0 t0 =>
        simp only [splitOnChar, if_neg hx, hsx] at h
        rcases List.mem_cons.mp h with h | h
        · subst h
          intro hmem
          rcases List.mem_cons.mp hmem with hmem | hmem
          · exact hx hmem.symm
          · exact ih (by rw [hsx]; exact List.mem_cons_self h0 t0) hmem
        · exact ih (by rw [hsx]; exact List.mem_cons_of_mem h0 h)

theorem length_splitOnChar (c : Char) (l : Str) :
    (splitOnChar c l).length = countc c l + 1 := by
  induction l with
  | nil => rfl
  | cons x xs ih =>
    by_cases hx : x = c
    · simp only [splitOnChar, if_pos hx, countc, if_pos hx, List.length_cons]
      omega
    · cases hsx : splitOnChar c xs with
      | nil => exact absurd hsx (splitOnChar_ne_nil c xs)
      | cons h0 t0 =>
        rw [hsx] at ih
        simp only [splitOnChar, if_neg hx, hsx, countc, if_neg hx, List.length_cons,
          List.tail_cons] at *
        omega

theorem countc_pos_of_mem {c : Char} {l : Str} (h : c ∈ l) : 1 ≤ countc c l := by
  induction l with
  | nil => simp at h
  | cons x xs ih =>
    rcases List.mem_cons.mp h with h | h
    · simp [countc, h]
    · have := ih h
      by_cases hx : x = c <;> simp [countc, hx] <;> omega

theorem exists_colon_decomp {c : Char} {l : Str} (h : c ∈ l) :
    ∃ a b, l = a ++ c :: b ∧ c ∉ a := by
  induction l with
  | nil => simp at h
  | cons x xs ih =>
    by_cases hx : x = c
    · exact ⟨[], xs, by simp [hx], by simp⟩
    · have hxs : c ∈ xs := by
        rcases List.mem_cons.mp h with h | h
        · exact absurd h.symm hx
        · exact h
      obtain ⟨a, b, heq, ha⟩ := ih hxs
      exact ⟨x :: a, b, by simp [heq], by
        intro hmem
        rcases List.mem_cons.mp hmem with hmem | hmem
        · exact hx hmem.symm
        · exact ha hmem⟩

theorem getD_mem_or {α : Type} (l : List α) (n : Nat) (d : α) :
    l.getD n d ∈ l ∨ l.getD n d = d := by
  induction l generalizing n with
  | nil => right; cases n <;> rfl
  | cons x xs ih =>
    cases n with
    | zero => left; exact List.mem_cons_self x xs
    | succ m =>
      rcases ih m with h | h
      · left; exact List.mem_cons_of_mem x h
      · right; exact h

theorem countc_append (c : Char) (a b : Str) :
    countc c (a ++ b) = countc c a + countc c b := by
  induction a with
  | nil => simp [countc]
  | cons x xs ih => simp [countc, ih]; omega

theorem not_mem_of_countc_eq_zero {c : Char} {l : Str} (h : countc c l = 0) : c ∉ l := by
  induction l with
  | nil => simp
  | cons x xs ih =>
    simp only [countc] at h
    by_cases hx : x = c
    · rw [if_pos hx] at h; omega
    · rw [if_neg hx, Nat.zero_add] at h
      intro hmem
      rcases List.mem_cons.mp hmem with hmem | hmem
      · exact hx hmem.symm
      · exact ih h hmem

theorem jlookup_eq_none {fs : List (Str × JVal)} {k : Str}
    (h : ∀ p ∈ fs, p.1 ≠ k) : jlookup fs k = Option.none := by
  induction fs with
  | nil => rfl
  | cons p rest ih =>
    obtain ⟨k1, v1⟩ := p
    have h1 : k1 ≠ k := h (k1, v1) (List.mem_cons_self _ _)
    simp only [jlookup, if_neg h1]
    exact ih fun q hq => h q (List.mem_cons_of_mem _ hq)

theorem mem_ite_single {α : Type} {x y : α} {c : Prop} [Decidable c]
    (h : x ∈ if c then [y] else []) : x = y := by
  split at h
  · simpa using h
  · simp at h

theorem normalize_prefixed_fixpoint (m t : Str) :
    normalize_item_id (m ++ ':' :: t) m = m ++ ':' :: t := by
  unfold normalize_item_id
  rw [if_pos (isPrefixOf_append_cons m t ':')]

theorem normalize_cases (item m : Str) :
    normalize_item_id item m = item ∨ ∃ t, normalize_item_id item m = m ++ ':' :: t := by
  by_cases h1 : (m ++ [':']).isPrefixOf item = true
  · exact Or.inl (by unfold normalize_item_id; rw [if_pos h1])
  · by_cases h2 : ("minecraft:".toList).isPrefixOf item = true
    · exact Or.inl (by unfold normalize_item_id; rw [if_neg h1, if_pos h2])
    · by_cases h3 : ':' ∉ item
      · exact Or.inr ⟨item, by unfold normalize_item_id; rw [if_neg h1, if_neg h2, if_pos h3]⟩
      · by_cases h4 : (splitOnChar ':' item).length = 2
        · exact Or.inr ⟨_, by
            unfold normalize_item_id; rw [if_neg h1, if_neg h2, if_neg h3, if_pos h4]⟩
        · exact Or.inl (by
            unfold normalize_item_id; rw [if_neg h1, if_neg h2, if_neg h3, if_neg h4])

theorem normalize_item_id_idem (item m : Str) :
    normalize_item_id (normalize_item_id item m) m = normalize_item_id item m := by
  rcases normalize_cases item m with h | ⟨t, h⟩
  · rw [h]; exact h
  · rw [h]; exact normalize_prefixed_fixpoint m t

theorem fix_prefixed_fixpoint {m t : Str} (hm : ':' ∉ m) (ht : ':' ∉ t) :
    fix_item_id (m ++ ':' :: t) m = m ++ ':' :: t := by
  have hmem : ':' ∈ m ++ ':' :: t := List.mem_append_right m (List.mem_cons_self ':' t)
  unfold fix_item_id
  rw [if_neg (fun hn => hn hmem), splitOnChar_append t hm, splitOnChar_not_mem ht]
  by_cases hmc : m = "minecraft".toList <;> simp [hmc]

theorem fix_cases (item m : Str) :
    fix_item_id item m = item ∨
    ∃ t, fix_item_id item m = m ++ ':' :: t ∧ ':' ∉ t := by
  by_cases h1 : ':' ∉ item
  · exact Or.inr ⟨item, by unfold fix_item_id; rw [if_pos h1], h1⟩
  · by_cases h2 : (splitOnChar ':' item).getD 0 [] = "minecraft".toList
    · exact Or.inl (by unfold fix_item_id; rw [if_neg h1, if_pos h2])
    · refine Or.inr ⟨(splitOnChar ':' item).getD 1 [],
        by unfold fix_item_id; rw [if_neg h1, if_neg h2], ?_⟩
      rcases getD_mem_or (splitOnChar ':' item) 1 [] with h | h
      · exact not_mem_of_mem_splitOnChar h
      · rw [h]; simp

theorem fix_item_id_idem {m : Str} (item : Str) (hm : ':' ∉ m) :
    fix_item_id (fix_item_id item m) m = fix_item_id item m := by
  rcases fix_cases item m with h | ⟨t, h, ht⟩
  · rw [h]; exact h
  · rw [h]; exact fix_prefixed_fixpoint hm ht

theorem normalize_carries (item m : Str) (hcount : countc ':' item ≤ 1) :
    carriesNamespace (normalize_item_id item m) m := by
  unfold carriesNamespace
  by_cases h1 : (m ++ [':']).isPrefixOf item = true
  · right; unfold normalize_item_id; rw [if_pos h1]; exact h1
  · by_cases h2 : ("minecraft:".toList).isPrefixOf item = true
    · left; unfold normalize_item_id; rw [if_neg h1, if_pos h2]; exact h2
    · by_cases h3 : ':' ∉ item
      · right; unfold normalize_item_id; rw [if_neg h1, if_neg h2, if_pos h3]
        exact isPrefixOf_append_cons m item ':'
      · have hmem : ':' ∈ item := not_not.mp h3
        have hlen : (splitOnChar ':' item).length = 2 := by
          have hl := length_splitOnChar ':' item
          have hpos := countc_pos_of_mem hmem
          omega
        right; unfold normalize_item_id; rw [if_neg h1, if_neg h2, if_neg h3, if_pos hlen]
        exact isPrefixOf_append_cons m _ ':'

theorem fix_carries (item m : Str) (hcount : countc ':' item ≤ 1) :
    carriesNamespace (fix_item_id item m) m := by
  unfold carriesNamespace
  by_cases h1 : ':' ∉ item
  · right; unfold fix_item_id; rw [if_pos h1]; exact isPrefixOf_append_cons m item ':'
  · have hmem : ':' ∈ item := not_not.mp h1
    obtain ⟨a, b, heq, ha⟩ := exists_colon_decomp hmem
    have hb : ':' ∉ b := by
      apply not_mem_of_countc_eq_zero
      have := hcount
      rw [heq, countc_append] at this
      simp only [countc, if_pos rfl, if_true, eq_self_iff_true] at this
      omega
    have hsplit : splitOnChar ':' item = [a, b] := by
      rw [heq, splitOnChar_append b ha, splitOnChar_not_mem hb]
    by_cases h2 : (splitOnChar ':' item).getD 0 [] = "minecraft".toList
    · left; unfold fix_item_id; rw [if_neg h1, if_pos h2]
      rw [hsplit] at h2
      have hamc : a = "minecraft".toList := by simpa using h2
      rw [heq, hamc]
      have hms : "minecraft:".toList = "minecraft".toList ++ [':'] := by decide
      rw [hms]
      exact isPrefixOf_append_cons _ b ':'
    · right; unfold fix_item_id; rw [if_neg h1, if_neg h2]
      exact isPrefixOf_append_cons m _ ':'

theorem item_components_v2_no_icon (item : JavaItemV2) (modId : Str) :
    jlookup (item_components_v2 item modId) "minecraft:icon".toList = Option.none := by
  apply jlookup_eq_none
  intro p hp
  simp only [item_components_v2, List.mem_append] at hp
  rcases hp with ((((((hp | hp) | hp) | hp) | hp) | hp) | hp) | hp
  · simp only [List.mem_singleton] at hp
    subst hp
    exact (by decide : "minecraft:max_stack_size".toList ≠ "minecraft:icon".toList)
  · rw [mem_ite_single hp]
    exact (by decide : "minecraft:durability".toList ≠ "minecraft:icon".toList)
  · rw [mem_ite_single hp]
    exact (by decide : "minecraft:ignores_damage".toList ≠ "minecraft:icon".toList)
  · rw [mem_ite_single hp]
    exact (by decide : "minecraft:damage".toList ≠ "minecraft:icon".toList)
  · rw [mem_ite_single hp]
    exact (by decide : "minecraft:armor".toList ≠ "minecraft:icon".toList)
  · rw [mem_ite_single hp]
    exact (by decide : "minecraft:food".toList ≠ "minecraft:icon".toList)
  · rw [mem_ite_single hp]
    exact (by decide : "minecraft:digger".toList ≠ "minecraft:icon".toList)
  · rw [mem_ite_single hp]
    exact (by decide : "minecraft:tags".toList ≠ "minecraft:icon".toList)

theorem convert_ingredient_v2_truthy (ing : PyIngredient) (modId : Str) :
    jTruthy (convert_ingredient_v2 ing modId) = true := by
  cases ing with
  | none => rfl
  | str s =>
    simp only [convert_ingredient_v2]
    split <;> rfl
  | dict i? t? c? =>
    cases i? with
    | some it => rfl
    | none =>
      cases t? with
      | some tag => rfl
      | none => rfl

theorem shapelessIngredientListV2_eq (modId : Str) (ings : List PyIngredient) :
    shapelessIngredientListV2 ings modId
      = (ings.map fun i => convert_ingredient_v2 i modId).filter jTruthy := by
  have go : ∀ (l : List PyIngredient) (acc : List JVal),
      l.foldl (fun acc ing =>
        if jTruthy (convert_ingredient_v2 ing modId) then
          acc ++ [convert_ingredient_v2 ing modId]
        else acc) acc
      = acc ++ (l.map fun i => convert_ingredient_v2 i modId).filter jTruthy := by
    intro l
    induction l with
    | nil => intro acc; simp
    | cons x xs ih =>
      intro acc
      simp only [List.foldl_cons, List.map_cons, List.filter_cons]
      by_cases h : jTruthy (convert_ingredient_v2 x modId) = true
      · rw [if_pos h, ih, h]
        simp
      · rw [if_neg h, ih]
        simp only [Bool.not_eq_true] at h
        rw [h]
        simp
  exact (go ings []).trans (by simp)

theorem mem_shapelessIngredientListV2 {ing : PyIngredient} {l : List PyIngredient}
    (modId : Str) (h : ing ∈ l) :
    convert_ingredient_v2 ing modId ∈ shapelessIngredientListV2 l modId := by
  rw [shapelessIngredientListV2_eq]
  exact List.mem_filter.mpr
    ⟨List.mem_map_of_mem _ h, convert_ingredient_v2_truthy ing modId⟩

theorem sanitizeModId_all (l : Str) : (sanitizeModId l).all isModChar = true := by
  induction l with
  | nil => rfl
  | cons x xs ih =>
    simp only [sanitizeModId, List.map_cons, List.all_cons, Bool.and_eq_true]
    refine ⟨?_, by simpa [sanitizeModId] using ih⟩
    by_cases h : isModChar x = true
    · rw [if_pos h]; exact h
    · rw [if_neg h]; decide

theorem normalize_ns_path {ns path modId : Str} (hns : ':' ∉ ns) (hp : ':' ∉ path)
    (hm : ':' ∉ modId) :
    normalize_item_id (ns ++ ':' :: path) modId =
      if ns = "minecraft".toList then ns ++ ':' :: path else modId ++ ':' :: path := by
  have hmem : ':' ∈ ns ++ ':' :: path := List.mem_append_right ns (List.mem_cons_self ':' path)
  have hsplit : splitOnChar ':' (ns ++ ':' :: path) = [ns, path] := by
    rw [splitOnChar_append path hns, splitOnChar_not_mem hp]
  have hminc : ':' ∉ "minecraft".toList := by decide
  have hms : "minecraft:".toList = "minecraft".toList ++ [':'] := by decide
  by_cases heq : modId = ns
  · have hpre : (modId ++ [':']).isPrefixOf (ns ++ ':' :: path) = true := by
      rw [heq]; exact isPrefixOf_append_cons ns path ':'
    unfold normalize_item_id
    rw [if_pos hpre]
    by_cases hmc : ns = "minecraft".toList
    · rw [if_pos hmc]
    · rw [if_neg hmc, heq]
  · have hpre : ¬ ((modId ++ [':']).isPrefixOf (ns ++ ':' :: path) = true) :=
      fun h => heq ((isPrefixOf_colon_iff path hm hns).mp h)
    unfold normalize_item_id
    rw [if_neg hpre]
    by_cases hmc : ns = "minecraft".toList
    · have hpre2 : ("minecraft:".toList).isPrefixOf (ns ++ ':' :: path) = true := by
        rw [hms, hmc]
        exact isPrefixOf_append_cons _ path ':'
      rw [if_pos hpre2, if_pos hmc]
    · have hpre2 : ¬ (("minecraft:".toList).isPrefixOf (ns ++ ':' :: path) = true) := by
        rw [hms]
        exact fun h => hmc ((isPrefixOf_colon_iff path hminc hns).mp h).symm
      rw [if_neg hpre2,
        if_neg (show ¬ (':' ∉ ns ++ ':' :: path) from fun hni => hni hmem), hsplit]
      have hl : ([ns, path] : List Str).length = 2 := rfl
      have h1 : ([ns, path] : List Str).getD 1 [] = path := rfl
      rw [if_pos hl, h1, if_neg hmc]

theorem normalize_bare {path : Str} (modId : Str) (hp : ':' ∉ path) :
    normalize_item_id path modId = modId ++ ':' :: path := by
  unfold normalize_item_id
  rw [if_neg (fun h => hp (mem_of_isPrefixOf h (by simp))),
    if_neg (fun h => hp (mem_of_isPrefixOf h (by decide))), if_pos hp]

theorem fix_ns_path {ns path : Str} (modId : Str) (hns : ':' ∉ ns) (hp : ':' ∉ path) :
    fix_item_id (ns ++ ':' :: path) modId =
      if ns = "minecraft".toList then ns ++ ':' :: path else modId ++ ':' :: path := by
  have hmem : ':' ∈ ns ++ ':' :: path := List.mem_append_right ns (List.mem_cons_self ':' path)
  have hsplit : splitOnChar ':' (ns ++ ':' :: path) = [ns, path] := by
    rw [splitOnChar_append path hns, splitOnChar_not_mem hp]
  unfold fix_item_id
  rw [if_neg (show ¬ (':' ∉ ns ++ ':' :: path) from fun hni => hni hmem), hsplit]
  have h0 : ([ns, path] : List Str).getD 0 [] = ns := rfl
  have h1 : ([ns, path] : List Str).getD 1 [] = path := rfl
  rw [h0, h1]

theorem fix_bare {path : Str} (modId : Str) (hp : ':' ∉ path) :
    fix_item_id path modId = modId ++ ':' :: path := by
  unfold fix_item_id
  rw [if_pos hp]

/-! ## Claim theorems -/

/-- C2, counterexample: the filename stem `-forge` derives the empty mod id
(violating both `[a-z0-9]+` and the claimed `mod` fallback), and `my_mod`
derives an id containing `_`, outside `[a-z0-9]+`. -/
theorem c2_counterexample :
    extract_mod_id_v2 "-forge".toList = []
    ∧ extract_mod_id_v3 "-forge".toList = []
    ∧ extract_mod_id_v2 "my_mod".toList = "my_mod".toList
    ∧ '_' ∈ extract_mod_id_v2 "my_mod".toList
    ∧ "mod".toList ≠ ([] : Str) := by decide

/-- C2, amended: in both engines the derived mod id consists only of
characters in `[a-z0-9_]`; underscores survive, the result may be empty, and
there is no `mod` fallback. -/
theorem c2_amended (stem : Str) :
    (extract_mod_id_v2 stem).all isModChar = true
    ∧ (extract_mod_id_v3 stem).all isModChar = true :=
  ⟨sanitizeModId_all _, sanitizeModId_all _⟩

/-- C7: for colon-free namespace, path and mod id, both engines preserve
`minecraft:*`, rewrite any other namespace to `{mod_id}:{path}`, and prefix a
bare path with `{mod_id}:`. -/
theorem c7_namespace_rules (ns path modId : Str)
    (hns : ':' ∉ ns) (hp : ':' ∉ path) (hm : ':' ∉ modId) :
    normalize_item_id (ns ++ ':' :: path) modId =
      (if ns = "minecraft".toList then ns ++ ':' :: path else modId ++ ':' :: path)
    ∧ normalize_item_id path modId = modId ++ ':' :: path
    ∧ fix_item_id (ns ++ ':' :: path) modId =
      (if ns = "minecraft".toList then ns ++ ':' :: path else modId ++ ':' :: path)
    ∧ fix_item_id path modId = modId ++ ':' :: path :=
  ⟨normalize_ns_path hns hp hm, normalize_bare modId hp,
   fix_ns_path modId hns hp, fix_bare modId hp⟩

/-- C7 witness at `forge:copper` with mod id `x`. -/
theorem c7_witness :
    normalize_item_id ("forge".toList ++ ':' :: "copper".toList) "x".toList =
      (if "forge".toList = "minecraft".toList then "forge".toList ++ ':' :: "copper".toList
       else "x".toList ++ ':' :: "copper".toList) :=
  (c7_namespace_rules "forge".toList "copper".toList "x".toList
    (by decide) (by decide) (by decide)).1

/-- C10, counterexample: v3 `_fix_item_id` is not idempotent for an arbitrary
mod id — with mod id `a:b`, input `x` maps to `a:b:x` and then to `a:b:b`. -/
theorem c10_counterexample :
    fix_item_id (fix_item_id "x".toList "a:b".toList) "a:b".toList
      ≠ fix_item_id "x".toList "a:b".toList := by decide

/-- C10, amended: for every mod id not containing `:` (true of every derived
mod id) both normalizations are idempotent, and on inputs with at most one
`:` the output begins with `minecraft:` or `{mod_id}:`. -/
theorem c10_amended (itemId modId : Str) (hm : ':' ∉ modId) :
    normalize_item_id (normalize_item_id itemId modId) modId = normalize_item_id itemId modId
    ∧ fix_item_id (fix_item_id itemId modId) modId = fix_item_id itemId modId
    ∧ (countc ':' itemId ≤ 1 →
        carriesNamespace (normalize_item_id itemId modId) modId
        ∧ carriesNamespace (fix_item_id itemId modId) modId) :=
  ⟨normalize_item_id_idem itemId modId, fix_item_id_idem itemId hm,
   fun hc => ⟨normalize_carries itemId modId hc, fix_carries itemId modId hc⟩⟩

/-- C10 witness at concrete inputs. -/
theorem c10_witness :
    fix_item_id (fix_item_id "copper".toList "x".toList) "x".toList
      = fix_item_id "copper".toList "x".toList
    ∧ carriesNamespace (normalize_item_id "forge:copper".toList "x".toList) "x".toList :=
  ⟨(c10_amended "copper".toList "x".toList (by decide)).2.1,
   ((c10_amended "forge:copper".toList "x".toList (by decide)).2.2 (by decide)).1⟩

/-- C1: with the four fresh `uuid4` draws pairwise distinct, each engine
writes exactly two manifests; their four identifiers are exactly the draws
(hence pairwise distinct), and the BP manifest's dependency list holds
exactly one entry, the RP header identifier.  (The source performs no
distinctness assertion; distinctness rests on the freshness of the draws,
here a hypothesis.) -/
theorem c1_manifests (modId now bpU rpU bpM rpM : Str)
    (h : [bpU, bpM, rpU, rpM].Nodup) :
    ((generate_manifests_v2 modId now bpU rpU bpM rpM).length = 2
      ∧ headerUuid (bp_manifest_v2 modId now bpU rpU bpM) = some bpU
      ∧ moduleUuids (bp_manifest_v2 modId now bpU rpU bpM) = [bpM]
      ∧ headerUuid (rp_manifest_v2 modId now rpU rpM) = some rpU
      ∧ moduleUuids (rp_manifest_v2 modId now rpU rpM) = [rpM]
      ∧ depUuids (bp_manifest_v2 modId now bpU rpU bpM) = [rpU]
      ∧ depUuids (rp_manifest_v2 modId now rpU rpM) = [])
    ∧ ((generate_manifests_v3 modId now bpU rpU bpM rpM).length = 2
      ∧ headerUuid (bp_manifest_v3 modId now bpU rpU bpM) = some bpU
      ∧ moduleUuids (bp_manifest_v3 modId now bpU rpU bpM) = [bpM]
      ∧ headerUuid (rp_manifest_v3 modId rpU rpM) = some rpU
      ∧ moduleUuids (rp_manifest_v3 modId rpU rpM) = [rpM]
      ∧ depUuids (bp_manifest_v3 modId now bpU rpU bpM) = [rpU]
      ∧ depUuids (rp_manifest_v3 modId rpU rpM) = [])
    ∧ [bpU, bpM, rpU, rpM].Nodup :=
  ⟨⟨rfl, rfl, rfl, rfl, rfl, rfl, rfl⟩, ⟨rfl, rfl, rfl, rfl, rfl, rfl, rfl⟩, h⟩

/-- C1 witness at four concrete distinct identifiers. -/
theorem c1_witness :
    headerUuid (bp_manifest_v2 "m".toList "t".toList "a".toList "c".toList "b".toList)
      = some "a".toList
    ∧ depUuids (bp_manifest_v2 "m".toList "t".toList "a".toList "c".toList "b".toList)
      = ["c".toList]
    ∧ ["a".toList, "b".toList, "c".toList, "d".toList].Nodup := by
  have h := c1_manifests "m".toList "t".toList "a".toList "c".toList "b".toList "d".toList
    (by decide)
  exact ⟨h.1.2.1, h.1.2.2.2.2.2.1, h.2.2⟩

/-- C3, counterexample: a v2 item document carries no `minecraft:icon`
component at all, and in v3 the icon component's value is the object
`{"texture": key}`, not the texture key in string form. -/
theorem c3_counterexample :
    compGet (convert_item_v2 { identifier := "copper_ingot".toList } "x".toList)
        "minecraft:icon".toList = Option.none
    ∧ (compGet (convert_item_v3
        { identifier := "copper_ingot".toList, texture_name := "copper_ingot".toList }
        "x".toList) "minecraft:icon".toList).map jIsStr = some false :=
  ⟨rfl, rfl⟩

/-- C3, amended: in the v3 engine every item document unconditionally carries
`minecraft:icon` with value `{"texture": texture_key}` and
`minecraft:max_stack_size`; the v2 engine carries `max_stack_size`
unconditionally but emits no icon component. -/
theorem c3_amended (it3 : JavaItemV3) (it2 : JavaItemV2) (modId : Str) :
    compGet (convert_item_v3 it3 modId) "minecraft:icon".toList
      = some (JVal.obj [("texture".toList, JVal.str it3.texture_name)])
    ∧ compGet (convert_item_v3 it3 modId) "minecraft:max_stack_size".toList
      = some (JVal.num (it3.max_stack_size : ℚ))
    ∧ compGet (convert_item_v2 it2 modId) "minecraft:max_stack_size".toList
      = some (JVal.num (it2.max_stack_size : ℚ))
    ∧ compGet (convert_item_v2 it2 modId) "minecraft:icon".toList = Option.none :=
  ⟨rfl, rfl, rfl, item_components_v2_no_icon it2 modId⟩

/-- C4: failing input — a mod whose only asset is the item texture
`copper_ingot`, mod id `x`.  The generated item document's icon string is
`copper_ingot`, but the atlas `texture_data` key is `x:copper_ingot`, so the
icon string appears nowhere among the atlas keys (the v3 source's own comment
demands that they match). -/
theorem c4_icon_atlas_mismatch :
    itemIconTexture (convert_item_v3 (create_item_from_texture_v3 "copper_ingot".toList)
        "x".toList) = some "copper_ingot".toList
    ∧ textureDataKeys (generate_item_texture_json_v3 "x".toList
        (create_items_from_textures_v3 ["copper_ingot".toList])) = ["x:copper_ingot".toList]
    ∧ "copper_ingot".toList ∉ textureDataKeys (generate_item_texture_json_v3 "x".toList
        (create_items_from_textures_v3 ["copper_ingot".toList])) := by
  refine ⟨rfl, rfl, ?_⟩
  decide

/-- C5: a parsed v2 recipe whose pattern has more than 3 rows or a row longer
than 3 characters is flagged extreme, lowers to `None`, and the generator
step writes no document and leaves the counter and the error list unchanged. -/
theorem c5_extreme_skip (recipeId modId : Str) (data : RecipeDataV2) (pat : List Str)
    (hp : data.pattern? = some pat)
    (hx : 3 < pat.length ∨ ∃ row ∈ pat, 3 < row.length) :
    (analyze_recipe_v2 recipeId data).is_extreme = true
    ∧ convert_recipe_v2 (analyze_recipe_v2 recipeId data) modId = Option.none
    ∧ ∀ st, generate_recipe_step_v2 modId st (analyze_recipe_v2 recipeId data) = st := by
  have hext : (analyze_recipe_v2 recipeId data).is_extreme = true := by
    simp only [analyze_recipe_v2, hp, Option.getD_some, Bool.or_eq_true, decide_eq_true_eq,
      List.any_eq_true]
    exact hx
  have hconv : convert_recipe_v2 (analyze_recipe_v2 recipeId data) modId = Option.none := by
    unfold convert_recipe_v2
    rw [if_pos hext]
  exact ⟨hext, hconv, fun st => by unfold generate_recipe_step_v2; rw [hconv]⟩

/-- C5 witness: a one-row pattern of width 4. -/
theorem c5_witness :
    convert_recipe_v2 (analyze_recipe_v2 "big".toList
      { pattern? := some ["AAAA".toList] }) "m".toList = Option.none :=
  (c5_extreme_skip "big".toList "m".toList { pattern? := some ["AAAA".toList] }
    ["AAAA".toList] rfl (by decide)).2.1

/-- C6, counterexample: in the v3 engine a shaped key holding the tag
`forge:ingots/copper` lowers to `minecraft:air`, not `minecraft:copper`. -/
theorem c6_counterexample :
    ((convert_recipe_v3
        { id := "r".toList,
          data := { type? := some "minecraft:crafting_shaped".toList,
                    key := [("C".toList,
                             PyIngredient.dict Option.none
                               (some "forge:ingots/copper".toList) Option.none)],
                    result? := some (PyResult.dict (some "minecraft:stick".toList)
                               Option.none Option.none) } }
        "m".toList).bind fun d =>
      (((d.get? "minecraft:recipe_shaped".toList).bind fun k => k.get? "key".toList).bind
        fun k => k.get? "C".toList).bind fun e => (e.get? "item".toList).bind jAsStr)
      = some "minecraft:air".toList
    ∧ "minecraft:air".toList ≠ "minecraft:copper".toList := by decide

/-- C6, amended: the v2 converter lowers every tag ingredient (in a shaped
key or a shapeless ingredient list) to an item `minecraft:` + last tag path
segment; the v3 converter ignores tags — a shaped key entry becomes
`minecraft:air` and a shapeless tag ingredient is dropped. -/
theorem c6_amended (tag modId sym : Str) (r2 : JavaRecipeV2)
    (h2 : (sym, PyIngredient.dict Option.none (some tag) Option.none) ∈ r2.key) :
    convert_ingredient_v2 (PyIngredient.dict Option.none (some tag) Option.none) modId
      = JVal.obj [("item".toList,
          JVal.str ("minecraft:".toList ++ (splitOnChar '/' tag).getLastD []))]
    ∧ (sym, JVal.obj [("item".toList,
          JVal.str ("minecraft:".toList ++ (splitOnChar '/' tag).getLastD []))])
        ∈ shapedKeyFieldsV2 r2 modId
    ∧ (∀ l : List PyIngredient,
        PyIngredient.dict Option.none (some tag) Option.none ∈ l →
        JVal.obj [("item".toList,
          JVal.str ("minecraft:".toList ++ (splitOnChar '/' tag).getLastD []))]
          ∈ shapelessIngredientListV2 l modId)
    ∧ v3KeyEntry modId (sym, PyIngredient.dict Option.none (some tag) Option.none)
        = (sym, JVal.obj [("item".toList, JVal.str "minecraft:air".toList)])
    ∧ shapelessIngredientListV3
        [PyIngredient.dict Option.none (some tag) Option.none] modId = [] := by
  refine ⟨rfl, ?_, ?_, rfl, rfl⟩
  · exact List.mem_map_of_mem (fun kv => (kv.1, convert_ingredient_v2 kv.2 modId)) h2
  · intro l hl
    exact mem_shapelessIngredientListV2 modId hl

/-- C6 witness at the concrete tag `forge:ingots/copper`. -/
theorem c6_witness :
    ("C".toList,
      JVal.obj [("item".toList, JVal.str ("minecraft:".toList ++
        (splitOnChar '/' "forge:ingots/copper".toList).getLastD []))])
      ∈ shapedKeyFieldsV2
        { recipe_id := "r".toList,
          key := [("C".toList, PyIngredient.dict Option.none
                    (some "forge:ingots/copper".toList) Option.none)] } "m".toList :=
  (c6_amended "forge:ingots/copper".toList "m".toList "C".toList
    { recipe_id := "r".toList,
      key := [("C".toList, PyIngredient.dict Option.none
                (some "forge:ingots/copper".toList) Option.none)] } (by decide)).2.1

/-- C8, counterexample: the v3 substring tests are case-sensitive — the
texture `Sword` contains `sword` case-insensitively, yet the synthesized item
is no tool and keeps stack size 64. -/
theorem c8_counterexample :
    pyIn "sword".toList (pyLower "Sword".toList) = true
    ∧ (create_item_from_texture_v3 "Sword".toList).is_tool = false
    ∧ (create_item_from_texture_v3 "Sword".toList).max_stack_size = 64 := by decide

/-- C8, amended: v3 matches case-sensitively: a tool word makes a tool with
stack 1, durability 250, attack damage 4; otherwise an armor word sets the
armor flag (no slot is recorded) with stack 1 and durability 250; otherwise
stack 64.  The v2 synthesizer assigns no roles at all: stack 64 only. -/
theorem c8_amended (t : Str) :
    (toolWords.any (fun w => pyIn w t) = true →
      (create_item_from_texture_v3 t).is_tool = true
      ∧ (create_item_from_texture_v3 t).max_stack_size = 1
      ∧ (create_item_from_texture_v3 t).max_damage = 250
      ∧ (create_item_from_texture_v3 t).attack_damage = 4)
    ∧ (toolWords.any (fun w => pyIn w t) = false →
        armorWords.any (fun w => pyIn w t) = true →
        (create_item_from_texture_v3 t).is_armor = true
        ∧ (create_item_from_texture_v3 t).max_stack_size = 1
        ∧ (create_item_from_texture_v3 t).max_damage = 250
        ∧ (create_item_from_texture_v3 t).is_tool = false)
    ∧ (toolWords.any (fun w => pyIn w t) = false →
        armorWords.any (fun w => pyIn w t) = false →
        (create_item_from_texture_v3 t).max_stack_size = 64
        ∧ (create_item_from_texture_v3 t).is_tool = false
        ∧ (create_item_from_texture_v3 t).is_armor = false
        ∧ (create_item_from_texture_v3 t).max_damage = 0)
    ∧ ((create_default_item_v2 t).max_stack_size = 64
        ∧ (create_default_item_v2 t).armor_value = 0
        ∧ (create_default_item_v2 t).attack_damage = 0) := by
  refine ⟨?_, ?_, ?_, rfl, rfl, rfl⟩
  · intro h
    simp [create_item_from_texture_v3, h]
  · intro h1 h2
    simp [create_item_from_texture_v3, h1, h2]
  · intro h1 h2
    simp [create_item_from_texture_v3, h1, h2]

/-- C8 witness: a sword texture and a helmet texture. -/
theorem c8_witness :
    (create_item_from_texture_v3 "ruby_sword".toList).is_tool = true
    ∧ (create_item_from_texture_v3 "ruby_helmet".toList).is_armor = true :=
  ⟨((c8_amended "ruby_sword".toList).1 (by decide)).1,
   ((c8_amended "ruby_helmet".toList).2.1 (by decide) (by decide)).1⟩

/-- C9, counterexample: the v3 engine swallows a failing entry silently — the
analyzer state is unchanged (no warning is recorded anywhere) and the result
`stats` object has no `errors` counter at all. -/
theorem c9_counterexample :
    processEntryV3 {} (JarEntryV3.recipeJsonEntry "data/x/recipes/bad.json".toList
        (Except.error "Expecting value".toList)) = ({} : AnalyzerStateV3)
    ∧ (result_stats_v3 { items := 3, blocks := 1, recipes := 2, textures := 4 }).get?
        "errors".toList = Option.none :=
  ⟨rfl, rfl⟩

/-- C9, amended: in the v2 engine a failing classfile / recipe / texture
entry is skipped with exactly one tagged warning appended, the run returns a
success result whose error counter totals generator and analyzer warnings; in
the v3 engine failing entries are skipped with no warning and the result
stats carry no error counter. -/
theorem c9_amended (st : AnalyzerStateV2) (st3 : AnalyzerStateV3) (fn msg : Str)
    (modId : Str) (gen : GenStatsV2) (aerrs : List Str) (g3 : GenStatsV3) :
    (processEntryV2 st (JarEntryV2.recipeJsonEntry fn (Except.error msg))).errors
        = st.errors ++ ["Recipe ".toList ++ fn ++ ": ".toList ++ msg]
    ∧ (processEntryV2 st (JarEntryV2.recipeJsonEntry fn (Except.error msg))).recipes
        = st.recipes
    ∧ (processEntryV2 st (JarEntryV2.recipeJsonEntry fn (Except.error msg))).items = st.items
    ∧ (processEntryV2 st (JarEntryV2.recipeJsonEntry fn (Except.error msg))).textures
        = st.textures
    ∧ (processEntryV2 st (JarEntryV2.itemClassEntry fn (Except.error msg))).errors
        = st.errors ++ ["Item class ".toList ++ fn ++ ": ".toList ++ msg]
    ∧ (processEntryV2 st (JarEntryV2.itemClassEntry fn (Except.error msg))).items = st.items
    ∧ (processEntryV2 st (JarEntryV2.texturePngEntry fn (Except.error msg))).errors
        = st.errors ++ ["Texture ".toList ++ fn ++ ": ".toList ++ msg]
    ∧ (processEntryV2 st (JarEntryV2.texturePngEntry fn (Except.error msg))).textures
        = st.textures
    ∧ (transpile_result_v2 modId gen aerrs).success = true
    ∧ (transpile_result_v2 modId gen aerrs).errorsCount
        = gen.errors.length + aerrs.length
    ∧ processEntryV3 st3 (JarEntryV3.recipeJsonEntry fn (Except.error msg)) = st3
    ∧ processEntryV3 st3 (JarEntryV3.itemTextureEntry fn (Except.error msg)) = st3
    ∧ processEntryV3 st3 (JarEntryV3.blockTextureEntry fn (Except.error msg)) = st3
    ∧ (result_stats_v3 g3).get? "errors".toList = Option.none :=
  ⟨rfl, rfl, rfl, rfl, rfl, rfl, rfl, rfl, rfl, rfl, rfl, rfl, rfl, rfl⟩
